import Mathlib

/-!
Verification of the json-render playground's streaming patch-application and
incremental-render loop, shallowly embedded from the demo component source.

The source is TypeScript/React.  Type annotations there are erased at run
time: `applyPatch` stores `patch.value` into the tree with an unchecked cast,
so the run-time tree can hold arbitrary JSON values.  We therefore model the
dynamic values with an explicit `JValue` type (JavaScript values reachable
here: JSON values plus `undefined`), JavaScript objects as association lists
in insertion order (spread-copy plus keyed assignment preserves the position
of an existing key and appends a new one), and JSON numbers as integers
(no fractional numbers occur in any claim or fixture).
-/

set_option autoImplicit false

namespace JsonRender

/-- A JavaScript value as it can occur in the demo's data flow: the JSON
values produced by `JSON.parse` plus `undefined` (the result of reading a
missing property). -/
inductive JValue where
  | undefined
  | null
  | bool (b : Bool)
  | num (n : Int)
  | str (s : String)
  | arr (elems : List JValue)
  | obj (fields : List (String × JValue))


/-- First-match lookup in an association list, like reading a property of a
JavaScript object. -/
def lookupKey {α : Type} : List (String × α) → String → Option α
  | [], _ => none
  | (k', v') :: rest, k => if k' = k then some v' else lookupKey rest k

/-- Keyed assignment `o[k] = v` on a JavaScript object: an existing key is
updated in place (its position kept), a new key is appended at the end. -/
def setKey {α : Type} : List (String × α) → String → α → List (String × α)
  | [], k, v => [(k, v)]
  | (k', v') :: rest, k, v =>
    if k' = k then (k, v) :: rest else (k', v') :: setKey rest k v

/-- Property read `v.k` yielding `undefined` when the property is missing or
the value is not an object.  (In JavaScript a read on `null`/`undefined`
would throw; no claim exercises that corner.) -/
def getField : JValue → String → JValue
  | .obj fields, k => (lookupKey fields k).getD .undefined
  | _, _ => .undefined

/-- JavaScript truthiness of a `JValue`. -/
def jsTruthy : JValue → Bool
  | .undefined => false
  | .null => false
  | .bool b => b
  | .num n => n != 0
  | .str s => s ≠ ""
  | .arr _ => true
  | .obj _ => true

/-- The parsed patch object: `{ op: string; path: string; value: unknown }`
as declared on `applyPatch` in the source. -/
structure Patch where
  op : String
  path : String
  value : JValue


/-- The run-time `UITree`: `{ root, elements }`.  The source declares
`root : string` and `elements : Record<string, UIElement>`, but `applyPatch`
assigns `patch.value` into both with unchecked casts, so at run time either
can hold any value; we model both slots as `JValue`. -/
structure UITree where
  root : JValue
  elements : List (String × JValue)


/-- JavaScript `s.startsWith(pre)`.  (Stated over the character sequences so
that concrete instances evaluate; `String.startsWith` itself does not reduce
in the kernel.) -/
def jsStartsWith (s pre : String) : Bool :=
  pre.data.isPrefixOf s.data

/-- JavaScript `String.prototype.split` with a single-character separator:
splits into the (always non-empty) list of separator-free segments, keeping
empty segments. -/
def jsSplitOn (sep : Char) : List Char → List (List Char)
  | [] => [[]]
  | c :: cs =>
    if c = sep then [] :: jsSplitOn sep cs
    else
      match jsSplitOn sep cs with
      | [] => [[c]]
      | l :: ls => (c :: l) :: ls

/-- The element key extracted from a `/elements/...` patch path in
`applyPatch`: `patch.path.slice("/elements/".length).split("/")[0]`. -/
def pathKey (path : String) : String :=
  String.mk ((jsSplitOn '/' (path.data.drop "/elements/".length)).headD [])

/-- `applyPatch` (demo component, lines 94–110): spread-copies the tree and
its `elements` object, then either sets the root (any op), sets/adds one
element record wholesale (op `set`/`add`, non-empty first path segment after
`/elements/`), or changes nothing. -/
def applyPatch (tree : UITree) (patch : Patch) : UITree :=
  let newTree : UITree := { root := tree.root, elements := tree.elements }
  if patch.path = "/root" then
    { newTree with root := patch.value }
  else if jsStartsWith patch.path "/elements/" then
    let key := pathKey patch.path
    if key ≠ "" ∧ (patch.op = "set" ∨ patch.op = "add") then
      { newTree with elements := setKey newTree.elements key patch.value }
    else newTree
  else newTree

/-- The tree `handleSubmit` starts from: `{ root: "", elements: {} }`. -/
def emptyTree : UITree := { root := .str "", elements := [] }

theorem lookupKey_setKey_self {α : Type} (l : List (String × α)) (k : String) (v : α) :
    lookupKey (setKey l k v) k = some v := by
  induction l with
  | nil => simp [setKey, lookupKey]
  | cons hd tl ih =>
    by_cases h : hd.1 = k
    · simp [setKey, h, lookupKey]
    · simp [setKey, h, lookupKey, ih]

/-- A path that starts with `"/elements/"` is not the path `"/root"`. -/
theorem ne_root_of_startsWith_elements {p : String}
    (h : jsStartsWith p "/elements/" = true) : p ≠ "/root" := by
  intro he
  rw [he] at h
  exact absurd h (by decide)

/-- Shape of `applyPatch` on a successful `/elements/` write. -/
theorem applyPatch_elements_eq (t : UITree) (p : Patch)
    (hel : jsStartsWith p.path "/elements/" = true)
    (hk : pathKey p.path ≠ "") (hop : p.op = "set" ∨ p.op = "add") :
    applyPatch t p =
      { root := t.root, elements := setKey t.elements (pathKey p.path) p.value } := by
  have hroot := ne_root_of_startsWith_elements hel
  rcases hop with h | h <;> simp [applyPatch, hroot, hel, hk, h]

/-- C1: applying two `set`/`add` patches that both target element key `k`
leaves at `k` exactly the second patch's value, wholesale: last-write-wins,
no field of the first patch's value survives. -/
theorem applyPatch_last_write_wins (t : UITree) (p1 p2 : Patch) (k : String)
    (hop1 : p1.op = "set" ∨ p1.op = "add") (hop2 : p2.op = "set" ∨ p2.op = "add")
    (hel1 : jsStartsWith p1.path "/elements/" = true) (hk1 : pathKey p1.path = k)
    (hel2 : jsStartsWith p2.path "/elements/" = true) (hk2 : pathKey p2.path = k)
    (hne : k ≠ "") :
    lookupKey (applyPatch (applyPatch t p1) p2).elements k = some p2.value := by
  rw [applyPatch_elements_eq (applyPatch t p1) p2 hel2 (by rw [hk2]; exact hne) hop2]
  rw [hk2]
  exact lookupKey_setKey_self _ k p2.value

/-- Witness for C1 at concrete patches on element key `x`. -/
theorem applyPatch_last_write_wins_witness :
    (("set" : String) = "set" ∨ ("set" : String) = "add") ∧
    (("add" : String) = "set" ∨ ("add" : String) = "add") ∧
    jsStartsWith "/elements/x" "/elements/" = true ∧
    pathKey "/elements/x" = "x" ∧ ("x" : String) ≠ "" ∧
    lookupKey (applyPatch (applyPatch emptyTree ⟨"set", "/elements/x", JValue.str "old"⟩)
        ⟨"add", "/elements/x", JValue.str "new"⟩).elements "x" = some (JValue.str "new") :=
  ⟨Or.inl rfl, Or.inr rfl, by decide, by decide, by decide,
    applyPatch_last_write_wins emptyTree ⟨"set", "/elements/x", JValue.str "old"⟩
      ⟨"add", "/elements/x", JValue.str "new"⟩ "x"
      (Or.inl rfl) (Or.inr rfl) (by decide) (by decide) (by decide) (by decide) (by decide)⟩

/-- C2: a patch whose path is `"/root"` (with op `set` or `add`) makes the
tree's root equal to the patch's value, whatever the prior root was. -/
theorem applyPatch_root_sets (t : UITree) (p : Patch)
    (hpath : p.path = "/root") (hop : p.op = "set" ∨ p.op = "add") :
    (applyPatch t p).root = p.value := by
  simp [applyPatch, hpath]

/-- Witness for C2 at a concrete tree and patch. -/
theorem applyPatch_root_sets_witness :
    ("/root" : String) = "/root" ∧ (("set" : String) = "set" ∨ ("set" : String) = "add") ∧
    (applyPatch { root := JValue.str "old", elements := [] }
      ⟨"set", "/root", JValue.str "card"⟩).root = JValue.str "card" :=
  ⟨rfl, Or.inl rfl,
    applyPatch_root_sets { root := JValue.str "old", elements := [] }
      ⟨"set", "/root", JValue.str "card"⟩ rfl (Or.inl rfl)⟩

/-- C3 counterexample: the claim says a `"/root"` patch whose op is neither
`set` nor `add` leaves the tree unchanged, but `applyPatch` never inspects
the op in its `"/root"` branch: a `remove` op still overwrites the root. -/
theorem applyPatch_root_ignores_op_counterexample :
    applyPatch { root := JValue.str "a", elements := [] }
      ⟨"remove", "/root", JValue.str "b"⟩ ≠ { root := JValue.str "a", elements := [] } := by
  intro h
  have hr := congrArg UITree.root h
  simp [applyPatch] at hr

/-- C3 (amended): a patch whose path is neither `"/root"` nor of the form
`"/elements/..."`, or whose path is `"/elements/..."` but whose op is neither
`set` nor `add`, is a no-op; a `"/root"` patch, however, replaces the root
whatever its op is. -/
theorem applyPatch_noop (t : UITree) (p : Patch)
    (hroot : p.path ≠ "/root")
    (h : jsStartsWith p.path "/elements/" = false ∨ (p.op ≠ "set" ∧ p.op ≠ "add")) :
    applyPatch t p = t := by
  rcases h with h | ⟨h1, h2⟩
  · simp [applyPatch, hroot, h]
  · by_cases hs : jsStartsWith p.path "/elements/"
    · simp [applyPatch, hroot, hs, h1, h2]
    · simp [applyPatch, hroot, hs]

/-- Witness for the amended C3 at a concrete tree and patch. -/
theorem applyPatch_noop_witness :
    ("/other" : String) ≠ "/root" ∧
    (jsStartsWith "/other" "/elements/" = false ∨
      (("set" : String) ≠ "set" ∧ ("set" : String) ≠ "add")) ∧
    applyPatch { root := JValue.str "a", elements := [] } ⟨"set", "/other", JValue.str "b"⟩ =
      { root := JValue.str "a", elements := [] } :=
  ⟨by decide, Or.inl (by decide),
    applyPatch_noop { root := JValue.str "a", elements := [] }
      ⟨"set", "/other", JValue.str "b"⟩ (by decide) (Or.inl (by decide))⟩

/-- C10: a patch whose path is exactly `"/elements/"` extracts the empty
string as key, and the `key &&` truthiness guard makes it a no-op for every
op, so no entry is ever created under the empty-string key. -/
theorem applyPatch_empty_elements_key_noop (t : UITree) (op : String) (v : JValue) :
    applyPatch t ⟨op, "/elements/", v⟩ = t := by
  have hk : pathKey "/elements/" = "" := by decide
  simp [applyPatch, hk]

/- The five scripted stream lines of `SIMULATION_STAGES` (demo component,
lines 25–46), transliterated from their JSON text. -/

/-- `{"op":"set","path":"/root","value":"card"}` -/
def simPatch1 : Patch := ⟨"set", "/root", .str "card"⟩

/-- `{"op":"add","path":"/elements/card","value":{"key":"card","type":"Card",
"props":{"title":"Contact Us","maxWidth":"md"},"children":["name"]}}` -/
def simPatch2 : Patch :=
  ⟨"add", "/elements/card",
    .obj [("key", .str "card"), ("type", .str "Card"),
      ("props", .obj [("title", .str "Contact Us"), ("maxWidth", .str "md")]),
      ("children", .arr [.str "name"])]⟩

/-- `{"op":"add","path":"/elements/email","value":{"key":"email","type":"Input",
"props":{"label":"Email","name":"email"}}}` -/
def simPatch3 : Patch :=
  ⟨"add", "/elements/email",
    .obj [("key", .str "email"), ("type", .str "Input"),
      ("props", .obj [("label", .str "Email"), ("name", .str "email")])]⟩

/-- `{"op":"add","path":"/elements/message","value":{"key":"message","type":"Textarea",
"props":{"label":"Message","name":"message"}}}` -/
def simPatch4 : Patch :=
  ⟨"add", "/elements/message",
    .obj [("key", .str "message"), ("type", .str "Textarea"),
      ("props", .obj [("label", .str "Message"), ("name", .str "message")])]⟩

/-- `{"op":"add","path":"/elements/submit","value":{"key":"submit","type":"Button",
"props":{"label":"Send Message","variant":"primary"}}}` -/
def simPatch5 : Patch :=
  ⟨"add", "/elements/submit",
    .obj [("key", .str "submit"), ("type", .str "Button"),
      ("props", .obj [("label", .str "Send Message"), ("variant", .str "primary")])]⟩

/-- The five scripted lines in order. -/
def simPatches : List Patch := [simPatch1, simPatch2, simPatch3, simPatch4, simPatch5]

/-- C6 evaluated on the code: folding `applyPatch` over the five scripted
lines from the empty tree yields root `"card"` whose element's `children`
field is `["name"]` — not the `["name","email","message","submit"]` the
fixture's final tree shows, because only the second line ever writes the
card element and its children list already stops at `["name"]`. -/
theorem simulation_stream_children_mismatch :
    (simPatches.foldl applyPatch emptyTree).root = JValue.str "card" ∧
    getField ((lookupKey (simPatches.foldl applyPatch emptyTree).elements "card").getD .undefined)
      "children" = JValue.arr [JValue.str "name"] ∧
    JValue.arr [JValue.str "name"] ≠
      JValue.arr [JValue.str "name", JValue.str "email", JValue.str "message",
        JValue.str "submit"] := by
  refine ⟨rfl, rfl, ?_⟩
  intro h
  simp at h

/-!
A small explicit-heap embedding of `applyPatch`, used to state that the
function never mutates its input.  JavaScript objects live in a store and
are passed by reference; `{ ...tree, elements: { ...tree.elements } }`
allocates a fresh tree object and a fresh elements object, and the
subsequent assignments (`newTree.root = ...`, `newTree.elements[key] = ...`)
mutate only those fresh cells.  Addresses are indices into the store lists;
allocation appends at the end.
-/

/-- A heap cell for a `UITree` object: its `root` value and the address of
its `elements` object. -/
structure TreeCell where
  root : JValue
  elems : Nat

/-- The store: tree objects and elements objects, addressed by index. -/
structure JSHeap where
  treeCells : List TreeCell
  elemCells : List (List (String × JValue))

/-- `applyPatch` with the object graph explicit: reads the input tree at
address `t`, allocates the spread copies, then performs the same branch
logic as `applyPatch`, mutating only the fresh cells; returns the new heap
and the address of the returned tree. -/
def applyPatchRef (h : JSHeap) (t : Nat) (p : Patch) : JSHeap × Nat :=
  match h.treeCells[t]? with
  | none => (h, t)
  | some cell =>
    let eCopy := (h.elemCells[cell.elems]?).getD []
    let ne := h.elemCells.length
    let nt := h.treeCells.length
    let h1 : JSHeap := ⟨h.treeCells ++ [⟨cell.root, ne⟩], h.elemCells ++ [eCopy]⟩
    if p.path = "/root" then
      (⟨h1.treeCells.set nt ⟨p.value, ne⟩, h1.elemCells⟩, nt)
    else if jsStartsWith p.path "/elements/" then
      if pathKey p.path ≠ "" ∧ (p.op = "set" ∨ p.op = "add") then
        (⟨h1.treeCells, h1.elemCells.set ne (setKey eCopy (pathKey p.path) p.value)⟩, nt)
      else (h1, nt)
    else (h1, nt)

theorem getElem?_append_singleton_low {α : Type} (l : List α) (a : α) (i : Nat)
    (hi : i < l.length) : (l ++ [a])[i]? = l[i]? := by
  rw [List.getElem?_append_left hi]

theorem getElem?_append_singleton_set_high {α : Type} (l : List α) (a b : α) (i j : Nat)
    (hi : i < l.length) (hj : l.length ≤ j) :
    ((l ++ [a]).set j b)[i]? = l[i]? := by
  rw [List.getElem?_set_ne (by omega)]
  exact getElem?_append_singleton_low l a i hi

/-- C9: `applyPatchRef` leaves the input tree object and its elements object
untouched for every patch, and returns a freshly allocated tree (a different
address than the input). -/
theorem applyPatchRef_no_mutation (h : JSHeap) (t : Nat) (p : Patch) (cell : TreeCell)
    (ht : h.treeCells[t]? = some cell) (he : cell.elems < h.elemCells.length) :
    (applyPatchRef h t p).1.treeCells[t]? = some cell ∧
    (applyPatchRef h t p).1.elemCells[cell.elems]? = h.elemCells[cell.elems]? ∧
    (applyPatchRef h t p).2 ≠ t := by
  have hlt : t < h.treeCells.length := (List.getElem?_eq_some.mp ht).1
  simp only [applyPatchRef, ht]
  split
  · refine ⟨?_, ?_, by omega⟩
    · rw [getElem?_append_singleton_set_high _ _ _ _ _ hlt (le_refl _)]
      exact ht
    · exact getElem?_append_singleton_low _ _ _ he
  · split
    · split
      · refine ⟨?_, ?_, by omega⟩
        · rw [getElem?_append_singleton_low _ _ _ hlt]
          exact ht
        · exact getElem?_append_singleton_set_high _ _ _ _ _ he (le_refl _)
      · refine ⟨?_, ?_, by omega⟩
        · rw [getElem?_append_singleton_low _ _ _ hlt]
          exact ht
        · exact getElem?_append_singleton_low _ _ _ he
    · refine ⟨?_, ?_, by omega⟩
      · rw [getElem?_append_singleton_low _ _ _ hlt]
        exact ht
      · exact getElem?_append_singleton_low _ _ _ he

/-- Witness for C9 at a concrete one-tree heap and a `/root` patch. -/
theorem applyPatchRef_no_mutation_witness :
    (JSHeap.mk [⟨JValue.str "a", 0⟩] [[("x", JValue.str "v")]]).treeCells[0]? =
      some ⟨JValue.str "a", 0⟩ ∧
    (0 : Nat) < 1 ∧
    (applyPatchRef ⟨[⟨JValue.str "a", 0⟩], [[("x", JValue.str "v")]]⟩ 0
        ⟨"set", "/root", JValue.str "b"⟩).1.treeCells[0]? = some ⟨JValue.str "a", 0⟩ ∧
    (applyPatchRef ⟨[⟨JValue.str "a", 0⟩], [[("x", JValue.str "v")]]⟩ 0
        ⟨"set", "/root", JValue.str "b"⟩).1.elemCells[0]? =
      (JSHeap.mk [⟨JValue.str "a", 0⟩] [[("x", JValue.str "v")]]).elemCells[0]? ∧
    (applyPatchRef ⟨[⟨JValue.str "a", 0⟩], [[("x", JValue.str "v")]]⟩ 0
        ⟨"set", "/root", JValue.str "b"⟩).2 ≠ 0 := by
  have h := applyPatchRef_no_mutation ⟨[⟨JValue.str "a", 0⟩], [[("x", JValue.str "v")]]⟩ 0
    ⟨"set", "/root", JValue.str "b"⟩ ⟨JValue.str "a", 0⟩ rfl (by decide)
  exact ⟨rfl, by decide, h.1, h.2.1, h.2.2⟩

/-!
The stream consumer of `handleSubmit` (lines 209–238).  Chunks and lines are
modelled as character sequences (the decoded text; `TextDecoder` with
`stream: true` guarantees the concatenation of the decoded chunks equals the
decoding of the whole byte stream, so re-splitting the bytes is re-splitting
the text).  `JSON.parse` is a platform primitive, not code of this
repository; it is abstracted as a parameter `jp`, with `none` standing for a
thrown parse error (caught by `parsePatch`'s `try`).
-/

/-- JavaScript `String.prototype.trim` over the character sequence:
whitespace stripped from both ends. -/
def jsTrim (s : List Char) : List Char :=
  ((s.dropWhile Char.isWhitespace).reverse.dropWhile Char.isWhitespace).reverse

/-- `parsePatch` (lines 84–92): trim the line, return `null` for an empty or
`//`-prefixed line, otherwise `JSON.parse` it, with a thrown parse error
caught and turned into `null`. -/
def parsePatch (jp : List Char → Option JValue) (line : List Char) : Option JValue :=
  let trimmed := jsTrim line
  if trimmed = [] ∨ ['/', '/'].isPrefixOf trimmed then none
  else jp trimmed

/-- View a parsed JSON value as the `{op, path, value}` patch object that
`handleSubmit` passes to `applyPatch`.  A parsed value whose `op` or `path`
is not a string is not a patch of the wire protocol (a non-string `path`
would make `applyPatch` throw on `.startsWith`, aborting the stream into
the surrounding `catch`); it is modelled as producing no tree change, which
no claim distinguishes. -/
def jvalPatch (v : JValue) : Option Patch :=
  match getField v "op", getField v "path" with
  | .str o, .str pa => some ⟨o, pa, getField v "value"⟩
  | _, _ => none

/-- One iteration of the `for (const line of lines)` body (lines 221–228):
parse the line and, if the result is truthy, apply it to the tree.  (The
`setTree`/`setStreamLines` calls mirror `currentTree` into UI state and are
not part of the tree computation.) -/
def lineStep (jp : List Char → Option JValue) (t : UITree) (line : List Char) : UITree :=
  match parsePatch jp line with
  | none => t
  | some v =>
    if jsTruthy v then
      match jvalPatch v with
      | some p => applyPatch t p
      | none => t
    else t

/-- The consumer's loop state: the trailing partial-line buffer and the
tree built so far (`buffer` and `currentTree` in the source). -/
structure StreamState where
  buffer : List Char
  tree : UITree

/-- One `reader.read()` iteration (lines 213–229): append the decoded chunk
to the buffer, split on newlines, pop the trailing segment back into the
buffer, and run `lineStep` over each complete line in order. -/
def feedChunk (jp : List Char → Option JValue) (st : StreamState) (chunk : List Char) :
    StreamState :=
  let lines := jsSplitOn '\n' (st.buffer ++ chunk)
  { buffer := lines.getLastD [], tree := lines.dropLast.foldl (lineStep jp) st.tree }

/-- The end-of-stream flush (lines 231–238): a buffer with non-empty trim is
parsed and applied like a line. -/
def endStream (jp : List Char → Option JValue) (st : StreamState) : UITree :=
  if jsTrim st.buffer ≠ [] then lineStep jp st.tree st.buffer else st.tree

/-- The consumer's initial state: empty buffer and `{ root: "", elements: {} }`. -/
def initState : StreamState := ⟨[], emptyTree⟩

/-- The whole consumer loop of `handleSubmit` over a list of decoded chunks. -/
def runStream (jp : List Char → Option JValue) (chunks : List (List Char)) : UITree :=
  endStream jp (chunks.foldl (feedChunk jp) initState)

theorem jsSplitOn_ne_nil (sep : Char) (s : List Char) : jsSplitOn sep s ≠ [] := by
  induction s with
  | nil => simp [jsSplitOn]
  | cons c cs ih =>
    by_cases h : c = sep
    · simp [jsSplitOn, h]
    · simp only [jsSplitOn, if_neg h]
      cases hs : jsSplitOn sep cs <;> simp

theorem getLastD_irrel {α : Type} (l : List α) (d d' : α) (h : l ≠ []) :
    l.getLastD d = l.getLastD d' := by
  cases l with
  | nil => exact absurd rfl h
  | cons a t => rw [List.getLastD_cons, List.getLastD_cons]

theorem getLastD_append_of_ne_nil {α : Type} (l1 l2 : List α) (d : α) (h : l2 ≠ []) :
    (l1 ++ l2).getLastD d = l2.getLastD d := by
  rw [List.getLastD_eq_getLast?, List.getLastD_eq_getLast?,
    List.getLast?_append_of_ne_nil l1 h]

/-- How splitting on a separator interacts with appending more text: the
complete segments stay, and the trailing segment is re-split together with
the new text. -/
theorem jsSplitOn_append (sep : Char) (s b : List Char) :
    jsSplitOn sep (s ++ b) =
      (jsSplitOn sep s).dropLast ++
        jsSplitOn sep ((jsSplitOn sep s).getLastD [] ++ b) := by
  induction s with
  | nil => simp [jsSplitOn]
  | cons c cs ih =>
    by_cases h : c = sep
    · have hne := jsSplitOn_ne_nil sep cs
      have hL : jsSplitOn sep ((c :: cs) ++ b) = [] :: jsSplitOn sep (cs ++ b) := by
        rw [List.cons_append]
        simp [jsSplitOn, h]
      have hR : jsSplitOn sep (c :: cs) = [] :: jsSplitOn sep cs := by
        simp [jsSplitOn, h]
      rw [hL, hR, ih, List.dropLast_cons_of_ne_nil hne, List.getLastD_cons]
      simp
    · have hne := jsSplitOn_ne_nil sep cs
      cases hA : jsSplitOn sep cs with
      | nil => exact absurd hA hne
      | cons x A' =>
        cases A' with
        | nil =>
          have hcb : jsSplitOn sep (cs ++ b) = jsSplitOn sep (x ++ b) := by
            rw [ih, hA]
            simp [List.getLastD_cons]
          cases hB : jsSplitOn sep (x ++ b) with
          | nil => exact absurd hB (jsSplitOn_ne_nil sep _)
          | cons l ls =>
            have hL : jsSplitOn sep ((c :: cs) ++ b) = (c :: l) :: ls := by
              rw [List.cons_append]
              simp only [jsSplitOn, if_neg h]
              rw [hcb, hB]
            have hR : jsSplitOn sep (c :: cs) = [c :: x] := by
              simp only [jsSplitOn, if_neg h]
              rw [hA]
            have hL2 : jsSplitOn sep ((c :: x) ++ b) = (c :: l) :: ls := by
              rw [List.cons_append]
              simp only [jsSplitOn, if_neg h]
              rw [hB]
            rw [hL, hR]
            simp only [List.dropLast_single, List.getLastD_cons, List.nil_append,
              List.getLastD_nil]
            rw [hL2]
        | cons y rest =>
          have hne' : y :: rest ≠ ([] : List (List Char)) := by simp
          have hcb : jsSplitOn sep (cs ++ b) =
              x :: ((y :: rest).dropLast ++
                jsSplitOn sep ((y :: rest).getLastD [] ++ b)) := by
            rw [ih, hA, List.dropLast_cons_of_ne_nil hne', List.getLastD_cons,
              getLastD_irrel (y :: rest) x [] hne', List.cons_append]
          have hL : jsSplitOn sep ((c :: cs) ++ b) =
              (c :: x) :: ((y :: rest).dropLast ++
                jsSplitOn sep ((y :: rest).getLastD [] ++ b)) := by
            rw [List.cons_append]
            simp only [jsSplitOn, if_neg h]
            rw [hcb]
          have hR : jsSplitOn sep (c :: cs) = (c :: x) :: y :: rest := by
            simp only [jsSplitOn, if_neg h]
            rw [hA]
          have hg : ((c :: x) :: y :: rest).getLastD ([] : List Char) =
              (y :: rest).getLastD [] := by
            rw [List.getLastD_cons, getLastD_irrel (y :: rest) (c :: x) [] hne']
          rw [hL, hR, List.dropLast_cons_of_ne_nil hne', hg, List.cons_append]

theorem feedChunk_append (jp : List Char → Option JValue) (st : StreamState)
    (a b : List Char) :
    feedChunk jp st (a ++ b) = feedChunk jp (feedChunk jp st a) b := by
  have hB : jsSplitOn '\n' ((jsSplitOn '\n' (st.buffer ++ a)).getLastD [] ++ b) ≠ [] :=
    jsSplitOn_ne_nil _ _
  simp only [feedChunk]
  rw [← List.append_assoc, jsSplitOn_append '\n' (st.buffer ++ a) b]
  rw [getLastD_append_of_ne_nil _ _ _ hB, List.dropLast_append_of_ne_nil _ hB,
    List.foldl_append]

theorem foldl_feedChunk_flatten (jp : List Char → Option JValue) (st : StreamState)
    (a : List Char) (chunks : List (List Char)) :
    chunks.foldl (feedChunk jp) (feedChunk jp st a) = feedChunk jp st (a ++ chunks.flatten) := by
  induction chunks generalizing a with
  | nil => simp
  | cons c rest ih =>
    simp only [List.foldl_cons, List.flatten_cons]
    rw [← List.append_assoc, ← ih (a ++ c), feedChunk_append jp st a c]

theorem runStream_eq_single (jp : List Char → Option JValue) (chunks : List (List Char)) :
    runStream jp chunks = runStream jp [chunks.flatten] := by
  unfold runStream
  cases chunks with
  | nil => rfl
  | cons c rest =>
    simp only [List.foldl_cons, List.flatten_cons]
    rw [foldl_feedChunk_flatten]
    rfl

/-- C4: the stream consumer is invariant under re-splitting the same total
decoded content across chunk boundaries: any two chunk lists with the same
concatenation (in particular, one line delivered in several pieces versus
one chunk) produce the same final tree. -/
theorem runStream_resplit_invariant (jp : List Char → Option JValue)
    (chunks1 chunks2 : List (List Char)) (h : chunks1.flatten = chunks2.flatten) :
    runStream jp chunks1 = runStream jp chunks2 := by
  rw [runStream_eq_single jp chunks1, runStream_eq_single jp chunks2, h]

/-- Witness for C4: one line split as `"a\n" ++ "b"` versus `"a" ++ "\nb"`. -/
theorem runStream_resplit_invariant_witness :
    ([['a', '\n'], ['b']] : List (List Char)).flatten = [['a'], ['\n', 'b']].flatten ∧
    runStream (fun _ => none) [['a', '\n'], ['b']] =
      runStream (fun _ => none) [['a'], ['\n', 'b']] :=
  ⟨rfl, runStream_resplit_invariant (fun _ => none) [['a', '\n'], ['b']] [['a'], ['\n', 'b']] rfl⟩

/-- C5: a line that trims to empty, is `//`-prefixed, or fails JSON parsing
makes `parsePatch` return `null`; on such a line the consumer's per-line
step leaves the tree unchanged and the loop goes on to process all
subsequent lines, with no error surfaced and no abort. -/
theorem failed_line_no_change (jp : List Char → Option JValue) (line : List Char)
    (h : jsTrim line = [] ∨ ['/', '/'].isPrefixOf (jsTrim line) = true ∨
      jp (jsTrim line) = none) :
    parsePatch jp line = none ∧
    ∀ (t : UITree) (rest : List (List Char)),
      (line :: rest).foldl (lineStep jp) t = rest.foldl (lineStep jp) t := by
  have hp : parsePatch jp line = none := by
    unfold parsePatch
    rcases h with h | h | h
    · simp [h]
    · simp [h]
    · by_cases he : jsTrim line = [] ∨ ['/', '/'].isPrefixOf (jsTrim line) = true
      · simp only []
        rcases he with he | he
        · simp [he]
        · simp [he]
      · push_neg at he
        simp [he.1, he.2, h]
  refine ⟨hp, fun t rest => ?_⟩
  simp only [List.foldl_cons, lineStep, hp]

/-- Witness for C5: a line `"hi"` whose parse fails, followed by another line. -/
theorem failed_line_no_change_witness :
    parsePatch (fun _ => none) ['h', 'i'] = none ∧
    ([['h', 'i'], ['o', 'k']].foldl (lineStep (fun _ => none)) emptyTree =
      [['o', 'k']].foldl (lineStep (fun _ => none)) emptyTree) :=
  ⟨(failed_line_no_change (fun _ => none) ['h', 'i'] (Or.inr (Or.inr rfl))).1,
   (failed_line_no_change (fun _ => none) ['h', 'i']
      (Or.inr (Or.inr rfl))).2 emptyTree [['o', 'k']]⟩

/-!
The renderer (`renderElement`, lines 254–477, and `renderPreview`, lines
480–502).  These operate on elements of the declared `UIElement` interface.
Output is modelled as a markup skeleton: tag, attributes and children;
event-handler props carry no data and are omitted.  A `fuel` parameter
bounds the recursion depth through child keys (the JS recursion is bounded
only by the key graph; on the acyclic trees of the protocol any fuel larger
than the tree depth is enough).
-/

/-- The `UIElement` interface: `{ key, type, props, children? }`. -/
structure UIElement where
  key : String
  type : String
  props : List (String × JValue)
  children : Option (List String)

/-- The `UITree` interface as declared (`root: string`,
`elements: Record<string, UIElement>`), the typed view the renderer
consumes. -/
structure UITreeT where
  root : String
  elements : List (String × UIElement)

/-- A React node stripped to its markup skeleton.  `rnull` is JSX `null`
(renders nothing); `jval` is an interpolated dynamic value. -/
inductive RNode where
  | rnull
  | text (s : String)
  | jval (v : JValue)
  | node (tag : String) (attrs : List (String × JValue)) (children : List RNode)

/-- Component state read by the renderer: the chosen `Select` values and
which `Select` dropdown is open. -/
structure RenderCtx where
  selectValues : List (String × String)
  openSelect : Option String

/-- A `className={...}` attribute list. -/
def cls (s : String) : List (String × JValue) := [("className", JValue.str s)]

/-- A `key={...}` plus `className={...}` attribute list. -/
def keyCls (k s : String) : List (String × JValue) :=
  [("key", JValue.str k), ("className", JValue.str s)]

/-- Property read on a props bag (`props.x`). -/
def getProp (props : List (String × JValue)) (k : String) : JValue :=
  (lookupKey props k).getD .undefined

/-- JavaScript `a || b`: `a` if truthy, else `b`. -/
def orDefault (v d : JValue) : JValue := if jsTruthy v then v else d

/-- JavaScript `===` against a string literal. -/
def strEq (v : JValue) (s : String) : Bool :=
  match v with
  | .str s2 => s2 == s
  | _ => false

/-- JavaScript `===` against a number literal. -/
def numEq (v : JValue) (n : Int) : Bool :=
  match v with
  | .num m => m == n
  | _ => false

/-- A TS `as string` read.  (A non-string value would make the subsequent
string-method call throw in JS; no claim touches that corner.) -/
def jvalAsString : JValue → String
  | .str s => s
  | _ => ""

/-- A TS `as number` read with a fallback.  (JS would coerce other values
via `ToNumber`; only numbers occur in the catalog's props.) -/
def jvalAsNum (v : JValue) (d : Int) : Int :=
  match v with
  | .num n => n
  | _ => d

mutual

/-- One element of `Array.prototype.join`: `String(v)`, except that `null`
and `undefined` join as the empty string. -/
def jsJoinItem : JValue → String
  | .undefined => ""
  | .null => ""
  | .bool b => cond b "true" "false"
  | .num n => toString n
  | .str s => s
  | .arr xs => String.intercalate "," (jsJoinItems xs)
  | .obj _ => "[object Object]"

/-- `jsJoinItem` over a list of array elements. -/
def jsJoinItems : List JValue → List String
  | [] => []
  | v :: vs => jsJoinItem v :: jsJoinItems vs

end

/-- `Array.prototype.join(sep)`. -/
def jsJoin (sep : String) (xs : List JValue) : String :=
  String.intercalate sep (jsJoinItems xs)

/-- The `customClass` computed at the top of `renderElement` (line 261):
`Array.isArray(props.className) ? props.className.join(" ") : ""`. -/
def customClassOf (props : List (String × JValue)) : String :=
  match getProp props "className" with
  | .arr xs => jsJoin " " xs
  | _ => ""

/-- The `baseClass` animation classes (line 262). -/
def baseClass : String := "animate-in fade-in slide-in-from-bottom-1 duration-200"

/-- JavaScript `String.prototype.includes` over character sequences. -/
def listIncludes (sub : List Char) : List Char → Bool
  | [] => sub.isEmpty
  | c :: t => sub.isPrefixOf (c :: t) || listIncludes sub t

/-- JavaScript `s.includes(sub)`. -/
def strIncludes (s sub : String) : Bool := listIncludes sub.data s.data

/-- `Array.prototype.map` with the element index. -/
def mapWithIndex {α β : Type} (f : Nat → α → β) (l : List α) : List β :=
  ((List.range l.length).zip l).map (fun p => f p.1 p.2)

/-- Truthiness of a `string | undefinedined` value (the `Select` chosen value). -/
def jsTruthyStrOpt : Option String → Bool
  | some s => s != ""
  | none => false

/-- JavaScript `===` between a `string | undefinedined` and a dynamic value. -/
def optStrEq (o : Option String) (v : JValue) : Bool :=
  match o, v with
  | some s, .str s2 => s == s2
  | _, _ => false

/-- The per-key body of `renderChildren` (lines 256–259): resolve the child
key in the element map, render it if present, else render `null`. -/
def renderChild (recur : UIElement → RNode) (elements : List (String × UIElement))
    (key : String) : RNode :=
  match lookupKey elements key with
  | some child => recur child
  | none => .rnull

/-- The component-type tags named by `renderElement`'s `switch`. -/
def knownTypes : List String :=
  ["Card", "Stack", "Grid", "Divider", "Input", "Textarea", "Select", "Checkbox",
   "Radio", "Switch", "Button", "Link", "Heading", "Text", "Image", "Avatar",
   "Badge", "Alert", "Progress", "Rating", "Form"]

/-- `renderElement` (lines 254–477): dispatch on the element's type tag over
the fixed catalog, falling through to a `[{type}]` placeholder.  The
`switch` is rendered as the equivalent `===` chain. -/
def renderElement : Nat → RenderCtx → UIElement → List (String × UIElement) → RNode
  | 0, _, _, _ => .rnull
  | fuel + 1, ctx, element, elements =>
    let props := element.props
    let childKeys := element.children.getD []
    let renderChildren :=
      childKeys.map (renderChild (fun c => renderElement fuel ctx c elements) elements)
    let customClass := customClassOf props
    if element.type = "Card" then
      let maxWidthClass :=
        if strEq (getProp props "maxWidth") "sm" then "max-w-xs sm:min-w-[280px]"
        else if strEq (getProp props "maxWidth") "md" then "max-w-sm sm:min-w-[320px]"
        else if strEq (getProp props "maxWidth") "lg" then "max-w-md sm:min-w-[360px]"
        else "w-full"
      let centeredClass := if jsTruthy (getProp props "centered") then "mx-auto" else ""
      RNode.node "div" (keyCls element.key
          ("border border-border rounded-lg p-3 bg-background overflow-hidden " ++
            maxWidthClass ++ " " ++ centeredClass ++ " " ++ baseClass ++ " " ++ customClass))
        [if jsTruthy (getProp props "title") then
            RNode.node "div" (cls "font-semibold text-sm mb-1 text-left")
              [RNode.jval (getProp props "title")]
          else RNode.rnull,
         if jsTruthy (getProp props "description") then
            RNode.node "div" (cls "text-[10px] text-muted-foreground mb-2 text-left")
              [RNode.jval (getProp props "description")]
          else RNode.rnull,
         RNode.node "div" (cls "space-y-2") renderChildren]
    else if element.type = "Stack" then
      let isHorizontal := strEq (getProp props "direction") "horizontal"
      let stackGap :=
        if strEq (getProp props "gap") "lg" then "gap-3"
        else if strEq (getProp props "gap") "sm" then "gap-1"
        else "gap-2"
      RNode.node "div" (keyCls element.key
          ("flex " ++ (if isHorizontal then "flex-row flex-wrap items-center" else "flex-col") ++
            " " ++ stackGap ++ " " ++ baseClass ++ " " ++ customClass))
        renderChildren
    else if element.type = "Grid" then
      let hasCustomCols := strIncludes customClass "grid-cols-"
      let cols :=
        if hasCustomCols then ""
        else if numEq (getProp props "columns") 4 then "grid-cols-4"
        else if numEq (getProp props "columns") 3 then "grid-cols-3"
        else if numEq (getProp props "columns") 2 then "grid-cols-2"
        else "grid-cols-1"
      let gridGap :=
        if strEq (getProp props "gap") "lg" then "gap-3"
        else if strEq (getProp props "gap") "sm" then "gap-1"
        else "gap-2"
      RNode.node "div" (keyCls element.key
          ("grid " ++ cols ++ " " ++ gridGap ++ " " ++ baseClass ++ " " ++ customClass))
        renderChildren
    else if element.type = "Divider" then
      RNode.node "hr" (keyCls element.key
        ("border-border my-2 " ++ baseClass ++ " " ++ customClass)) []
    else if element.type = "Input" then
      RNode.node "div" (keyCls element.key (baseClass ++ " " ++ customClass))
        [if jsTruthy (getProp props "label") then
            RNode.node "label" (cls "text-[10px] text-muted-foreground block mb-0.5 text-left")
              [RNode.jval (getProp props "label")]
          else RNode.rnull,
         RNode.node "input"
           [("type", orDefault (getProp props "type") (.str "text")),
            ("placeholder", orDefault (getProp props "placeholder") (.str "")),
            ("className", .str "h-7 w-full bg-card border border-border rounded px-2 text-xs focus:outline-none focus:ring-1 focus:ring-foreground/20")]
           []]
    else if element.type = "Textarea" then
      let rows := orDefault (getProp props "rows") (.num 3)
      RNode.node "div" (keyCls element.key (baseClass ++ " " ++ customClass))
        [if jsTruthy (getProp props "label") then
            RNode.node "label" (cls "text-[10px] text-muted-foreground block mb-0.5 text-left")
              [RNode.jval (getProp props "label")]
          else RNode.rnull,
         RNode.node "textarea"
           [("placeholder", orDefault (getProp props "placeholder") (.str "")),
            ("rows", rows),
            ("className", .str "w-full bg-card border border-border rounded px-2 py-1 text-xs resize-none focus:outline-none focus:ring-1 focus:ring-foreground/20")]
           []]
    else if element.type = "Select" then
      let selectOptions :=
        match getProp props "options" with
        | .arr xs => xs
        | _ => []
      let selectedValue := lookupKey ctx.selectValues element.key
      let isOpen := ctx.openSelect == some element.key
      RNode.node "div" (keyCls element.key ("relative " ++ baseClass ++ " " ++ customClass))
        [if jsTruthy (getProp props "label") then
            RNode.node "label" (cls "text-[10px] text-muted-foreground block mb-0.5 text-left")
              [RNode.jval (getProp props "label")]
          else RNode.rnull,
         RNode.node "div" (cls "h-7 w-full bg-card border border-border rounded px-2 text-xs flex items-center justify-between cursor-pointer hover:border-foreground/30 transition-colors")
           [RNode.node "span"
              (cls (if jsTruthyStrOpt selectedValue then "text-foreground"
                else "text-muted-foreground/50"))
              [if jsTruthyStrOpt selectedValue then RNode.text (selectedValue.getD "")
               else RNode.jval (orDefault (getProp props "placeholder") (.str "Select..."))],
            RNode.node "svg"
              [("className", .str ("w-3 h-3 transition-transform " ++
                 (if isOpen then "rotate-180" else ""))),
               ("fill", .str "none"), ("stroke", .str "currentColor"),
               ("viewBox", .str "0 0 24 24")]
              [RNode.node "path"
                [("strokeLinecap", .str "round"), ("strokeLinejoin", .str "round"),
                 ("strokeWidth", .num 2), ("d", .str "M19 9l-7 7-7-7")] []]],
         if isOpen && decide (selectOptions.length > 0) then
           RNode.node "div" (cls "absolute z-10 top-full left-0 right-0 mt-1 bg-card border border-border rounded shadow-lg overflow-hidden")
             (mapWithIndex (fun i opt =>
               RNode.node "div"
                 [("key", .num i),
                  ("className", .str ("px-2 py-1.5 text-xs text-left cursor-pointer hover:bg-muted transition-colors " ++
                    (if optStrEq selectedValue opt then "bg-muted" else "")))]
                 [RNode.jval opt]) selectOptions)
         else RNode.rnull]
    else if element.type = "Checkbox" then
      RNode.node "label" (keyCls element.key
          ("flex items-center gap-2 text-xs " ++ baseClass ++ " " ++ customClass))
        [RNode.node "div" (cls ("w-3.5 h-3.5 border border-border rounded-sm " ++
           (if jsTruthy (getProp props "checked") then "bg-foreground" else "bg-card"))) [],
         RNode.jval (getProp props "label")]
    else if element.type = "Radio" then
      let options :=
        match getProp props "options" with
        | .arr xs => xs
        | _ => []
      RNode.node "div" (keyCls element.key ("space-y-1 " ++ baseClass ++ " " ++ customClass))
        ([if jsTruthy (getProp props "label") then
            RNode.node "div" (cls "text-[10px] text-muted-foreground mb-1 text-left")
              [RNode.jval (getProp props "label")]
          else RNode.rnull] ++
         mapWithIndex (fun i opt =>
           RNode.node "label" [("key", .num i), ("className", .str "flex items-center gap-2 text-xs")]
             [RNode.node "div" (cls ("w-3.5 h-3.5 border border-border rounded-full " ++
                (if i = 0 then "bg-foreground" else "bg-card"))) [],
              RNode.jval opt]) options)
    else if element.type = "Switch" then
      RNode.node "label" (keyCls element.key
          ("flex items-center justify-between gap-2 text-xs " ++ baseClass ++ " " ++ customClass))
        [RNode.node "span" [] [RNode.jval (getProp props "label")],
         RNode.node "div" (cls ("w-8 h-4 rounded-full relative " ++
             (if jsTruthy (getProp props "checked") then "bg-foreground" else "bg-border")))
           [RNode.node "div" (cls ("absolute w-3 h-3 rounded-full bg-background top-0.5 transition-all " ++
              (if jsTruthy (getProp props "checked") then "right-0.5" else "left-0.5"))) []]]
    else if element.type = "Button" then
      let btnClass :=
        if strEq (getProp props "variant") "danger" then "bg-red-500 text-white"
        else if strEq (getProp props "variant") "secondary" then "bg-card border border-border text-foreground"
        else "bg-foreground text-background"
      RNode.node "button" (keyCls element.key
          ("self-start px-3 py-1.5 rounded text-xs font-medium hover:opacity-90 transition-opacity " ++
            btnClass ++ " " ++ baseClass ++ " " ++ customClass))
        [RNode.jval (getProp props "label")]
    else if element.type = "Link" then
      RNode.node "span" (keyCls element.key
          ("text-xs text-blue-500 underline cursor-pointer " ++ baseClass ++ " " ++ customClass))
        [RNode.jval (getProp props "label")]
    else if element.type = "Heading" then
      let level := orDefault (getProp props "level") (.num 2)
      let headingClass :=
        if numEq level 1 then "text-lg font-bold"
        else if numEq level 3 then "text-xs font-semibold"
        else if numEq level 4 then "text-[10px] font-semibold"
        else "text-sm font-semibold"
      RNode.node "div" (keyCls element.key
          (headingClass ++ " text-left " ++ baseClass ++ " " ++ customClass))
        [RNode.jval (getProp props "text")]
    else if element.type = "Text" then
      let textClass :=
        if strEq (getProp props "variant") "caption" then "text-[10px]"
        else if strEq (getProp props "variant") "muted" then "text-xs text-muted-foreground"
        else "text-xs"
      RNode.node "p" (keyCls element.key
          (textClass ++ " text-left " ++ baseClass ++ " " ++ customClass))
        [RNode.jval (getProp props "content")]
    else if element.type = "Image" then
      let hasCustomSize := strIncludes customClass "w-" || strIncludes customClass "h-"
      let imgStyle : JValue :=
        if hasCustomSize then .obj []
        else .obj [("width", orDefault (getProp props "width") (.num 80)),
                   ("height", orDefault (getProp props "height") (.num 60))]
      RNode.node "div" (keyCls element.key
          ("bg-card border border-border rounded flex items-center justify-center text-[10px] text-muted-foreground aspect-video " ++
            baseClass ++ " " ++ customClass) ++ [("style", imgStyle)])
        [RNode.jval (orDefault (getProp props "alt") (.str "img"))]
    else if element.type = "Avatar" then
      let name := jvalAsString (orDefault (getProp props "name") (.str "?"))
      let initials := String.mk
        (((((jsSplitOn ' ' name.data).map (fun w => w.take 1)).flatten).take 2).map Char.toUpper)
      let avatarSize :=
        if strEq (getProp props "size") "lg" then "w-10 h-10 text-sm"
        else if strEq (getProp props "size") "sm" then "w-6 h-6 text-[8px]"
        else "w-8 h-8 text-[10px]"
      RNode.node "div" (keyCls element.key
          (avatarSize ++ " rounded-full bg-muted flex items-center justify-center font-medium " ++
            baseClass ++ " " ++ customClass))
        [RNode.text initials]
    else if element.type = "Badge" then
      let badgeClass :=
        if strEq (getProp props "variant") "success" then "bg-green-100 text-green-800"
        else if strEq (getProp props "variant") "warning" then "bg-yellow-100 text-yellow-800"
        else if strEq (getProp props "variant") "danger" then "bg-red-100 text-red-800"
        else "bg-muted text-foreground"
      RNode.node "span" (keyCls element.key
          ("px-1.5 py-0.5 rounded text-[10px] font-medium " ++ badgeClass ++ " " ++
            baseClass ++ " " ++ customClass))
        [RNode.jval (getProp props "text")]
    else if element.type = "Alert" then
      let alertClass :=
        if strEq (getProp props "type") "success" then "bg-green-50 border-green-200"
        else if strEq (getProp props "type") "warning" then "bg-yellow-50 border-yellow-200"
        else if strEq (getProp props "type") "error" then "bg-red-50 border-red-200"
        else "bg-blue-50 border-blue-200"
      RNode.node "div" (keyCls element.key
          ("p-2 rounded border " ++ alertClass ++ " " ++ baseClass ++ " " ++ customClass))
        [RNode.node "div" (cls "text-xs font-medium") [RNode.jval (getProp props "title")],
         if jsTruthy (getProp props "message") then
           RNode.node "div" (cls "text-[10px] mt-0.5") [RNode.jval (getProp props "message")]
         else RNode.rnull]
    else if element.type = "Progress" then
      let value := min 100 (max 0 (jvalAsNum (orDefault (getProp props "value") (.num 0)) 0))
      RNode.node "div" (keyCls element.key (baseClass ++ " " ++ customClass))
        [if jsTruthy (getProp props "label") then
            RNode.node "div" (cls "text-[10px] text-muted-foreground mb-1 text-left")
              [RNode.jval (getProp props "label")]
          else RNode.rnull,
         RNode.node "div" (cls "h-2 bg-muted rounded-full overflow-hidden")
           [RNode.node "div"
             [("className", .str "h-full bg-foreground rounded-full transition-all"),
              ("style", .obj [("width", .str (toString value ++ "%"))])] []]]
    else if element.type = "Rating" then
      let ratingValue := jvalAsNum (orDefault (getProp props "value") (.num 0)) 0
      let maxRating := jvalAsNum (orDefault (getProp props "max") (.num 5)) 0
      RNode.node "div" (keyCls element.key (baseClass ++ " " ++ customClass))
        [if jsTruthy (getProp props "label") then
            RNode.node "div" (cls "text-[10px] text-muted-foreground mb-1 text-left")
              [RNode.jval (getProp props "label")]
          else RNode.rnull,
         RNode.node "div" (cls "flex gap-0.5")
           ((List.range maxRating.toNat).map (fun i =>
             RNode.node "span"
               [("key", .num i),
                ("className", .str ("text-sm " ++
                  (if (i : Int) < ratingValue then "text-yellow-400" else "text-muted")))]
               [RNode.text "*"]))]
    else if element.type = "Form" then
      RNode.node "div" (keyCls element.key
          ("border border-border rounded-lg p-3 bg-background " ++ baseClass ++ " " ++ customClass))
        [if jsTruthy (getProp props "title") then
            RNode.node "div" (cls "font-semibold text-sm mb-2 text-left")
              [RNode.jval (getProp props "title")]
          else RNode.rnull,
         RNode.node "div" (cls "space-y-2") renderChildren]
    else
      RNode.node "div" (keyCls element.key
          ("text-[10px] text-muted-foreground " ++ baseClass ++ " " ++ customClass))
        [RNode.text "[", RNode.text element.type, RNode.text "]"]

/-- The placeholder shown when there is no renderable tree (lines 483–485). -/
def waitingDiv (isLoading : Bool) : RNode :=
  RNode.node "div" (cls "h-full flex items-center justify-center text-muted-foreground/50 text-sm")
    [RNode.text (if isLoading then "generating..." else "waiting...")]

/-- `renderPreview` (lines 480–502) on the currently displayed tree (the
scripted stage's tree in simulation mode, else the live tree).  A missing
tree, an empty root key, or a root key absent from the element map renders
the waiting placeholder; the source's second `if (!root) return null` check
is unreachable and is absorbed by the `match`. -/
def renderPreview (fuel : Nat) (isLoading actionFired : Bool) (ctx : RenderCtx)
    (currentTree : Option UITreeT) : RNode :=
  match currentTree with
  | none => waitingDiv isLoading
  | some t =>
    if t.root = "" then waitingDiv isLoading
    else
      match lookupKey t.elements t.root with
      | none => waitingDiv isLoading
      | some root =>
        RNode.node "div" (cls "animate-in fade-in duration-200 w-full flex flex-col items-center py-4")
          [RNode.node "div" (cls "my-auto")
            [renderElement fuel ctx root t.elements,
             if actionFired then
               RNode.node "div" (cls "mt-3 text-xs font-mono text-muted-foreground text-center animate-in fade-in slide-in-from-bottom-2")
                 [RNode.text "onAction()"]
             else RNode.rnull]]

/-- C7: on an element whose type tag is outside the catalog, `renderElement`
reaches the `default` branch and returns the `[{type}]` placeholder — a node
whose children contain the type name — for every fuel, context, props and
element map; being a total function of the embedding, it throws nothing. -/
theorem renderElement_unknown_type (fuel : Nat) (ctx : RenderCtx) (el : UIElement)
    (elements : List (String × UIElement)) (h : el.type ∉ knownTypes) :
    renderElement (fuel + 1) ctx el elements =
      RNode.node "div" (keyCls el.key
        ("text-[10px] text-muted-foreground " ++ baseClass ++ " " ++ customClassOf el.props))
        [RNode.text "[", RNode.text el.type, RNode.text "]"] := by
  simp only [knownTypes, List.mem_cons, List.not_mem_nil, or_false, not_or] at h
  obtain ⟨h1, h2, h3, h4, h5, h6, h7, h8, h9, h10, h11, h12, h13, h14, h15, h16, h17,
    h18, h19, h20, h21⟩ := h
  simp only [renderElement]
  rw [if_neg h1, if_neg h2, if_neg h3, if_neg h4, if_neg h5, if_neg h6, if_neg h7,
    if_neg h8, if_neg h9, if_neg h10, if_neg h11, if_neg h12, if_neg h13, if_neg h14,
    if_neg h15, if_neg h16, if_neg h17, if_neg h18, if_neg h19, if_neg h20, if_neg h21]

/-- Witness for C7 at the unknown type tag `"Foo"`. -/
theorem renderElement_unknown_type_witness :
    ("Foo" : String) ∉ knownTypes ∧
    renderElement 1 ⟨[], none⟩ ⟨"x", "Foo", [], none⟩ [] =
      RNode.node "div" (keyCls "x"
        ("text-[10px] text-muted-foreground " ++ baseClass ++ " " ++ customClassOf []))
        [RNode.text "[", RNode.text "Foo", RNode.text "]"] :=
  ⟨by decide, renderElement_unknown_type 0 ⟨[], none⟩ ⟨"x", "Foo", [], none⟩ [] (by decide)⟩

/-- C8: unresolvable references render as nothing rather than failing: a
child key with no entry in the element map renders JSX `null` inside
`renderChildren`; and a missing tree, an empty root key, or a root key with
no entry makes `renderPreview` render the waiting placeholder instead of an
element. -/
theorem dangling_refs_render_empty :
    (∀ (recur : UIElement → RNode) (elements : List (String × UIElement)) (k : String),
      lookupKey elements k = none → renderChild recur elements k = RNode.rnull) ∧
    (∀ (fuel : Nat) (l a : Bool) (ctx : RenderCtx),
      renderPreview fuel l a ctx none = waitingDiv l) ∧
    (∀ (fuel : Nat) (l a : Bool) (ctx : RenderCtx) (t : UITreeT),
      t.root = "" ∨ lookupKey t.elements t.root = none →
      renderPreview fuel l a ctx (some t) = waitingDiv l) := by
  refine ⟨?_, ?_, ?_⟩
  · intro recur elements k h
    simp [renderChild, h]
  · intro fuel l a ctx
    rfl
  · intro fuel l a ctx t h
    rcases h with h | h
    · simp [renderPreview, h]
    · by_cases hr : t.root = ""
      · simp [renderPreview, hr]
      · simp [renderPreview, hr, h]

/-- Witness for C8: an empty element map, and trees with no root entry. -/
theorem dangling_refs_render_empty_witness :
    renderChild (fun _ => RNode.rnull) [] "x" = RNode.rnull ∧
    renderPreview 1 false false ⟨[], none⟩ none = waitingDiv false ∧
    renderPreview 1 false false ⟨[], none⟩ (some ⟨"card", []⟩) = waitingDiv false :=
  ⟨dangling_refs_render_empty.1 (fun _ => RNode.rnull) [] "x" rfl,
   dangling_refs_render_empty.2.1 1 false false ⟨[], none⟩,
   dangling_refs_render_empty.2.2 1 false false ⟨[], none⟩ ⟨"card", []⟩ (Or.inr rfl)⟩

end JsonRender
